import Mathlib

/-!
# Verification of the tabbed-UI state-lifecycle core

A shallow embedding of the repository's four UI components — the tab
container (`Tabbed`, src/components/Tabbed.tsx, final keyed version),
the content panel (`TabContent`, src/components/TabContent.tsx), the
leaf selector (`Tab`, src/components/Tab.tsx) and the alternate panel
(`DifferentContent`) — together with a model of the hosting engine's
documented mount/update/unmount and update-batching behaviour, which
the repository consumes but does not implement.

Conventions: the spec's `detailsVisible` / `likeCount` are the source's
`showDetails` / `likes`; the spec's `SelectionIndex` is the source's
`activeTab`.
-/

/-- A content record `{summary, details}` (`ContentItem` in src/App.tsx),
immutable input supplied by the host application. -/
structure ContentItem where
  summary : String
  details : String
deriving DecidableEq

/-- The two local state cells of one mounted `TabContent` instance:
`useState(true)` for `showDetails` and `useState(0)` for `likes`. -/
structure PanelState where
  showDetails : Bool
  likes : Int
deriving DecidableEq

/-- The initial panel state produced at every fresh mount:
`useState(true)`, `useState(0)`. -/
def initialPanelState : PanelState := { showDetails := true, likes := 0 }

/-- One state-update request sent to the engine by a `setShowDetails` /
`setLikes` call: either a replacement value (`setLikes(0)`) or a
functional updater (`setLikes((likes) => likes + 1)`). -/
inductive PanelUpdate where
  | setShowDetailsVal (v : Bool)
  | setShowDetailsFn (f : Bool → Bool)
  | setLikesVal (v : Int)
  | setLikesFn (f : Int → Int)

/-- Apply one state-update request to the latest pending state. A
functional updater reads the pending value; a replacement value ignores
it. -/
def applyUpdate (st : PanelState) : PanelUpdate → PanelState
  | .setShowDetailsVal v => { st with showDetails := v }
  | .setShowDetailsFn f => { st with showDetails := f st.showDetails }
  | .setLikesVal v => { st with likes := v }
  | .setLikesFn f => { st with likes := f st.likes }

/-- Modelled from the spec: the hosting engine batches every state-update
request raised within one event into a single pass, applying each request
in order to the latest pending value and committing one re-render at the
end. -/
def dispatch (st : PanelState) (us : List PanelUpdate) : PanelState :=
  us.foldl applyUpdate st

/-- `handleInc` in TabContent.tsx: `setLikes((likes) => likes + 1)`. -/
def handleInc : List PanelUpdate :=
  [.setLikesFn (fun likes => likes + 1)]

/-- `handleUndo` in TabContent.tsx: `setShowDetails(true); setLikes(0)`. -/
def handleUndo : List PanelUpdate :=
  [.setShowDetailsVal true, .setLikesVal 0]

/-- `handleTripleInc` in TabContent.tsx: three functional updates
`setLikes((likes) => likes + 1)` issued in one event. -/
def handleTripleInc : List PanelUpdate :=
  [.setLikesFn (fun likes => likes + 1),
   .setLikesFn (fun likes => likes + 1),
   .setLikesFn (fun likes => likes + 1)]

/-- The details-toggle button handler in TabContent.tsx:
`setShowDetails((h) => !h)`. -/
def toggleDetails : List PanelUpdate :=
  [.setShowDetailsFn (fun h => !h)]

/-- A pending deferred action: `setTimeout(handleUndo, 2000)` schedules
`handleUndo` to run after 2000 ms. -/
structure Timer where
  delayMs : Nat
  action : List PanelUpdate

/-- `handleUndoLater` in TabContent.tsx: `setTimeout(handleUndo, 2000)`. -/
def handleUndoLater : Timer := { delayMs := 2000, action := handleUndo }

/-- A `TabContent` instance as the engine sees it: either already
destroyed, or mounted with its local state. -/
inductive PanelInstance where
  | unmounted
  | mounted (st : PanelState)
deriving DecidableEq

/-- Modelled from the spec: the hosting engine silently ignores
state-update requests delivered to an instance that has already
unmounted — they neither throw nor mutate anything. -/
def deliver : PanelInstance → List PanelUpdate → PanelInstance
  | .unmounted, _ => .unmounted
  | .mounted st, us => .mounted (dispatch st us)

/-- Firing a pending timer delivers its captured action to the owning
instance. -/
def fireTimer (t : Timer) (inst : PanelInstance) : PanelInstance :=
  deliver inst t.action

/-- What `TabContent` returns for given props and state: `null` when
`item` is undefined (the `if (!item) return null;` guard), otherwise the
view showing the summary, the details when `showDetails` holds, and the
likes counter. -/
inductive Rendered where
  | null
  | panelView (summary : String) (details : Option String) (likes : Int)
deriving DecidableEq

/-- The render function of `TabContent` (TabContent.tsx): given the
optional `item` prop and the instance's local state, produce its output. -/
def TabContent.render (item : Option ContentItem) (st : PanelState) : Rendered :=
  match item with
  | none => .null
  | some it =>
      .panelView it.summary (if st.showDetails then some it.details else none) st.likes

/-- The panel slot of `Tabbed`'s render output (Tabbed.tsx):
`activeTab <= 2 ? (currentItem ? <TabContent item={currentItem}
key={currentItem.summary} /> : null) : <DifferentContent />`. -/
inductive PanelSlot where
  | empty
  | contentPanel (key : String) (item : ContentItem)
  | differentContent
deriving DecidableEq

/-- `const currentItem = activeTab <= 2 ? content.at(activeTab) : undefined;`
in Tabbed.tsx. -/
def currentItem (content : List ContentItem) (activeTab : Nat) : Option ContentItem :=
  if activeTab ≤ 2 then content[activeTab]? else none

/-- The conditional panel slot rendered by `Tabbed` (Tabbed.tsx, final
keyed version): a `TabContent` keyed by `currentItem.summary` when the
selection resolves to a record, `null` when it does not, and
`DifferentContent` when `activeTab > 2`. -/
def renderSlot (content : List ContentItem) (activeTab : Nat) : PanelSlot :=
  if activeTab ≤ 2 then
    match currentItem content activeTab with
    | some it => .contentPanel it.summary it
    | none => .empty
  else .differentContent

/-- The unit currently mounted in the panel slot, as the engine tracks it:
nothing, a `TabContent` instance carrying its key and local state, or a
`DifferentContent` instance (stateless). -/
inductive Mounted where
  | noUnit
  | contentInst (key : String) (st : PanelState)
  | differentInst
deriving DecidableEq

/-- Number of content-or-alternate units mounted in the slot. -/
def unitCount : Mounted → Nat
  | .noUnit => 0
  | .contentInst _ _ => 1
  | .differentInst => 1

/-- Modelled from the spec: the hosting engine's reconciliation rule for
the panel slot — an existing instance is preserved (with its local state)
iff the new output has the identical component type and the identical
identity key; otherwise the old instance is destroyed and a fresh one is
created with initial state. -/
def reconcile (old : Mounted) : PanelSlot → Mounted
  | .empty => .noUnit
  | .differentContent => .differentInst
  | .contentPanel k _ =>
      match old with
      | .contentInst k0 st => if k0 = k then .contentInst k0 st else .contentInst k initialPanelState
      | _ => .contentInst k initialPanelState

/-- The full state of the mounted `Tabbed` container: its `activeTab`
state cell plus whatever instance the engine keeps in the panel slot. -/
structure TabbedState where
  activeTab : Nat
  mounted : Mounted
deriving DecidableEq

/-- Mounting `Tabbed` (Tabbed.tsx): `useState(0)` initialises `activeTab`
to 0 and the engine mounts the slot rendered for selection 0. -/
def initTabbed (content : List ContentItem) : TabbedState :=
  { activeTab := 0, mounted := reconcile .noUnit (renderSlot content 0) }

/-- A leaf selector reporting a click: `setActiveTab n` followed by the
engine reconciling the re-rendered panel slot. -/
def selectTab (content : List ContentItem) (s : TabbedState) (n : Nat) : TabbedState :=
  { activeTab := n, mounted := reconcile s.mounted (renderSlot content n) }

/-- A user event on the mounted content panel: its batched updates are
dispatched to the mounted instance's state; with no content panel mounted
there is no such control, so nothing happens. -/
def panelEvent (s : TabbedState) (us : List PanelUpdate) : TabbedState :=
  match s.mounted with
  | .contentInst k st => { s with mounted := .contentInst k (dispatch st us) }
  | _ => s

/-- The user-visible operations of the tab container. -/
inductive TabPress where
  | select (n : Nat)
  | panel (us : List PanelUpdate)

/-- One step of the container's event loop. -/
def stepTabbed (content : List ContentItem) (s : TabbedState) : TabPress → TabbedState
  | .select n => selectTab content s n
  | .panel us => panelEvent s us

/-- Run the container from its mount through a sequence of user events. -/
def runTabbed (content : List ContentItem) (evs : List TabPress) : TabbedState :=
  evs.foldl (stepTabbed content) (initTabbed content)

/-- The output of a leaf selector (`Tab` in Tab.tsx): its class name, its
label, and the index its click handler reports to `onClick`. -/
structure ButtonView where
  className : String
  label : String
  clickIndex : Nat
deriving DecidableEq

/-- The `Tab` component (Tab.tsx): a pure function of
`(num, activeTab, onClick)` rendering
`<button className={activeTab === num ? "tab active" : "tab"}
onClick={() => onClick(num)}>Tab {num + 1}</button>`. -/
def Tab (num activeTab : Nat) : ButtonView :=
  { className := if activeTab = num then "tab active" else "tab"
    label := "Tab " ++ toString (num + 1)
    clickIndex := num }

/-- The ways a button control can be actuated. -/
inductive PressedKey where
  | enter
  | space
  | other (code : String)
deriving DecidableEq

/-- An actuation of a rendered control. -/
inductive Actuation where
  | pointerClick
  | keyDown (k : PressedKey)
deriving DecidableEq

/-- Modelled from the spec: a native button is activated by a pointer
click or an Enter/Space key press, each of which dispatches its click
handler; activating a `Tab` therefore yields the index it passes to the
selection callback, and other key presses yield nothing. -/
def actuate (b : ButtonView) : Actuation → Option Nat
  | .pointerClick => some b.clickIndex
  | .keyDown .enter => some b.clickIndex
  | .keyDown .space => some b.clickIndex
  | .keyDown (.other _) => none

/-- Demo content list from the spec's concrete scenario:
`[{summary:"A",...}, {summary:"B",...}, {summary:"C",...}]`. -/
def demoContent : List ContentItem :=
  [{ summary := "A", details := "a" },
   { summary := "B", details := "b" },
   { summary := "C", details := "c" }]

/-- C2: invoking the increment-by-three operation once, from any state
with `likes = n`, yields `likes = n + 3` (in particular 3 from 0, not 1):
the batched pass applies each of the three functional updates to the
latest pending value. -/
theorem tripleInc_adds_three (st : PanelState) :
    (dispatch st handleTripleInc).likes = st.likes + 3
    ∧ (dispatch st handleTripleInc).showDetails = st.showDetails
    ∧ (dispatch initialPanelState handleTripleInc).likes = 3 := by
  refine ⟨?_, rfl, rfl⟩
  show st.likes + 1 + 1 + 1 = st.likes + 3
  ring

/-- C6: from every panel state, the immediate-undo operation yields
exactly `(showDetails, likes) = (true, 0)`. -/
theorem undo_resets (st : PanelState) :
    dispatch st handleUndo = { showDetails := true, likes := 0 } := rfl

/-- C5: deferred-undo schedules the immediate-undo action with a fixed
2000 ms delay, and however the panel state is mutated before the timer
fires (any further batches `ops`), firing the captured action yields
exactly `(true, 0)` — the reset targets are fixed values, not values
computed at schedule time. -/
theorem undoLater_fixed_reset (st : PanelState) (ops : List (List PanelUpdate)) :
    handleUndoLater.delayMs = 2000
    ∧ handleUndoLater.action = handleUndo
    ∧ dispatch (ops.foldl dispatch st) handleUndoLater.action
        = { showDetails := true, likes := 0 } := ⟨rfl, rfl, rfl⟩

/-- C7: a timer firing against an instance that has already unmounted is
a no-op — the delivery total-functionally returns the unmounted instance
unchanged, mutating nothing and throwing nothing. -/
theorem timer_after_unmount_noop (t : Timer) :
    fireTimer t PanelInstance.unmounted = PanelInstance.unmounted := rfl

/-- C10: the two panel state cells are independent: the details-toggle
changes only `showDetails`, and the two increment operations change only
`likes`; no operation other than the undos touches both cells. -/
theorem panel_ops_frame (st : PanelState) :
    (dispatch st toggleDetails).likes = st.likes
    ∧ (dispatch st toggleDetails).showDetails = !st.showDetails
    ∧ (dispatch st handleInc).showDetails = st.showDetails
    ∧ (dispatch st handleInc).likes = st.likes + 1
    ∧ (dispatch st handleTripleInc).showDetails = st.showDetails
    ∧ (dispatch st handleTripleInc).likes = st.likes + 1 + 1 + 1 := by
  exact ⟨rfl, rfl, rfl, rfl, rfl, rfl⟩

/-- C9: the leaf selector is a pure function of its props; actuating it by
pointer click or an Enter/Space key press reports its own assigned index
to the selection callback, and its class marks it active exactly when its
assigned index equals the container's current selection index. -/
theorem tab_reports_own_index (num activeTab : Nat) (a : Actuation)
    (ha : a = Actuation.pointerClick
        ∨ a = Actuation.keyDown PressedKey.enter
        ∨ a = Actuation.keyDown PressedKey.space) :
    actuate (Tab num activeTab) a = some num
    ∧ ((Tab num activeTab).className = "tab active" ↔ activeTab = num)
    ∧ (Tab num activeTab).clickIndex = num := by
  refine ⟨?_, ?_, rfl⟩
  · rcases ha with h | h | h <;> subst h <;> rfl
  · unfold Tab
    by_cases h : activeTab = num
    · simp [h]
    · simp [h]

/-- Witness for C9 at `num = 1`, `activeTab = 1`, pointer click. -/
theorem tab_reports_own_index_witness :
    actuate (Tab 1 1) Actuation.pointerClick = some 1
    ∧ ((Tab 1 1).className = "tab active" ↔ (1 : Nat) = 1)
    ∧ (Tab 1 1).clickIndex = 1 :=
  tab_reports_own_index 1 1 Actuation.pointerClick (Or.inl rfl)

/-- C4: when the current content-bearing selection resolves to no record
(in particular for the empty content list), the container renders nothing
in the panel slot — it never emits a content panel with an undefined
record — and `TabContent` itself, given no record, returns empty output
rather than erroring. -/
theorem missing_record_safety (content : List ContentItem) (n : Nat) (st : PanelState)
    (hn : content[n]? = none) :
    (n ≤ 2 → renderSlot content n = PanelSlot.empty)
    ∧ (∀ k it, renderSlot content n ≠ PanelSlot.contentPanel k it)
    ∧ TabContent.render none st = Rendered.null := by
  refine ⟨?_, ?_, rfl⟩
  · intro h2
    simp [renderSlot, currentItem, h2, hn]
  · intro k it
    by_cases h2 : n ≤ 2
    · simp [renderSlot, currentItem, h2, hn]
    · simp [renderSlot, h2]

/-- Witness for C4: the empty content list at selection 0. -/
theorem missing_record_safety_witness :
    ((0 : Nat) ≤ 2 → renderSlot [] 0 = PanelSlot.empty)
    ∧ (∀ k it, renderSlot [] 0 ≠ PanelSlot.contentPanel k it)
    ∧ TabContent.render none initialPanelState = Rendered.null :=
  missing_record_safety [] 0 initialPanelState rfl

/-- Within a content list whose summaries are pairwise distinct, records
at distinct positions have distinct summaries. -/
theorem summary_ne_of_distinct (content : List ContentItem)
    (hnodup : (content.map (fun it => it.summary)).Nodup)
    (A B : Nat) (hA : A < content.length) (itA itB : ContentItem)
    (hitA : content[A]? = some itA) (hitB : content[B]? = some itB)
    (hAB : A ≠ B) : itA.summary ≠ itB.summary := by
  intro heq
  apply hAB
  have h0 : A < (content.map (fun it => it.summary)).length := by simpa using hA
  have h2 : (content.map (fun it => it.summary))[A]?
      = (content.map (fun it => it.summary))[B]? := by
    simp [List.getElem?_map, hitA, hitB, heq]
  exact List.getElem?_inj h0 hnodup h2

/-- C1: with pairwise-distinct summaries, for distinct content-bearing
selections `A ≠ B`, whatever state the panel on `A` has reached,
selecting `B` and then `A` again yields a content panel with the initial
state `(showDetails, likes) = (true, 0)`: the identity key (the record's
summary) changes on each switch, so the instance is remounted both
times. -/
theorem reset_on_switch (content : List ContentItem)
    (hnodup : (content.map (fun it => it.summary)).Nodup)
    (A B : Nat) (hA2 : A ≤ 2) (hB2 : B ≤ 2) (hAlen : A < content.length)
    (itA itB : ContentItem)
    (hitA : content[A]? = some itA) (hitB : content[B]? = some itB)
    (hAB : A ≠ B) (st : PanelState) :
    selectTab content
        (selectTab content
          { activeTab := A, mounted := Mounted.contentInst itA.summary st } B) A
      = { activeTab := A, mounted := Mounted.contentInst itA.summary initialPanelState } := by
  have hne : itA.summary ≠ itB.summary :=
    summary_ne_of_distinct content hnodup A B hAlen itA itB hitA hitB hAB
  have eB : renderSlot content B = PanelSlot.contentPanel itB.summary itB := by
    simp [renderSlot, currentItem, hB2, hitB]
  have eA : renderSlot content A = PanelSlot.contentPanel itA.summary itA := by
    simp [renderSlot, currentItem, hA2, hitA]
  have r1 : reconcile (Mounted.contentInst itA.summary st)
      (PanelSlot.contentPanel itB.summary itB)
      = Mounted.contentInst itB.summary initialPanelState := by
    simp [reconcile, hne]
  have r2 : reconcile (Mounted.contentInst itB.summary initialPanelState)
      (PanelSlot.contentPanel itA.summary itA)
      = Mounted.contentInst itA.summary initialPanelState := by
    simp [reconcile, hne.symm]
  simp only [selectTab, eB, r1, eA, r2]

/-- Witness for C1 at the spec's demo list, `A = 0`, `B = 1`, after the
panel on `A` reached `showDetails = false`, `likes = 2`. -/
theorem reset_on_switch_witness :
    selectTab demoContent
        (selectTab demoContent
          { activeTab := 0,
            mounted := Mounted.contentInst "A" { showDetails := false, likes := 2 } } 1) 0
      = { activeTab := 0, mounted := Mounted.contentInst "A" initialPanelState } :=
  reset_on_switch demoContent (by decide) 0 1 (by decide) (by decide) (by decide)
    { summary := "A", details := "a" } { summary := "B", details := "b" }
    (by decide) (by decide) (by decide) { showDetails := false, likes := 2 }

/-- C8: from a content-bearing selection with any panel state, selecting
the alternate selection (index 3) mounts the alternate unit, and
selecting the same content index again yields a fresh content panel with
the initial state — the type change alone forces the remount, with the
identity key unchanged across the round trip. -/
theorem type_switch_reset (content : List ContentItem) (A : Nat) (hA2 : A ≤ 2)
    (itA : ContentItem) (hitA : content[A]? = some itA) (st : PanelState) :
    (selectTab content
        { activeTab := A, mounted := Mounted.contentInst itA.summary st } 3).mounted
      = Mounted.differentInst
    ∧ selectTab content
        (selectTab content
          { activeTab := A, mounted := Mounted.contentInst itA.summary st } 3) A
      = { activeTab := A, mounted := Mounted.contentInst itA.summary initialPanelState } := by
  have e3 : renderSlot content 3 = PanelSlot.differentContent := by
    norm_num [renderSlot]
  have eA : renderSlot content A = PanelSlot.contentPanel itA.summary itA := by
    simp [renderSlot, currentItem, hA2, hitA]
  constructor
  · simp only [selectTab, e3]
    rfl
  · simp only [selectTab, e3, eA]
    rfl

/-- Witness for C8 at the spec's demo list, selection 0 with `likes = 5`,
through the alternate selection and back. -/
theorem type_switch_reset_witness :
    (selectTab demoContent
        { activeTab := 0,
          mounted := Mounted.contentInst "A" { showDetails := true, likes := 5 } } 3).mounted
      = Mounted.differentInst
    ∧ selectTab demoContent
        (selectTab demoContent
          { activeTab := 0,
            mounted := Mounted.contentInst "A" { showDetails := true, likes := 5 } } 3) 0
      = { activeTab := 0, mounted := Mounted.contentInst "A" initialPanelState } :=
  type_switch_reset demoContent 0 (by decide) { summary := "A", details := "a" }
    (by decide) { showDetails := true, likes := 5 }

/-- A mounted unit agrees with a rendered slot: the constructors line up
and, for a content panel, the instance carries the slot's identity key. -/
def matchesSlot : Mounted → PanelSlot → Prop
  | .noUnit, .empty => True
  | .differentInst, .differentContent => True
  | .contentInst k _, .contentPanel k2 _ => k = k2
  | _, _ => False

/-- Reconciliation always leaves the slot holding exactly what was
rendered, whatever was mounted before. -/
theorem reconcile_matches (old : Mounted) (slot : PanelSlot) :
    matchesSlot (reconcile old slot) slot := by
  cases slot with
  | empty => trivial
  | differentContent => trivial
  | contentPanel k it =>
      cases old with
      | noUnit => simp [reconcile, matchesSlot]
      | differentInst => simp [reconcile, matchesSlot]
      | contentInst k0 st =>
          by_cases h : k0 = k
          · simp [reconcile, h, matchesSlot]
          · simp [reconcile, h, matchesSlot]

/-- A panel event leaves the selection index unchanged. -/
theorem panelEvent_activeTab (s : TabbedState) (us : List PanelUpdate) :
    (panelEvent s us).activeTab = s.activeTab := by
  cases h : s.mounted <;> simp [panelEvent, h]

/-- A panel event changes only the mounted instance's state, never which
unit (or key) occupies the slot. -/
theorem panelEvent_matches (s : TabbedState) (us : List PanelUpdate)
    (slot : PanelSlot) (h : matchesSlot s.mounted slot) :
    matchesSlot (panelEvent s us).mounted slot := by
  cases hm : s.mounted with
  | noUnit => simpa [panelEvent, hm] using h
  | differentInst => simpa [panelEvent, hm] using h
  | contentInst k st =>
      rw [hm] at h
      cases slot with
      | empty => exact absurd h (by simp [matchesSlot])
      | differentContent => exact absurd h (by simp [matchesSlot])
      | contentPanel k2 it => simpa [panelEvent, hm, matchesSlot] using h

/-- The slot invariant: the mounted unit agrees with what the container
renders for its current selection. -/
def slotInv (content : List ContentItem) (s : TabbedState) : Prop :=
  matchesSlot s.mounted (renderSlot content s.activeTab)

/-- Each event-loop step preserves the slot invariant. -/
theorem stepTabbed_preserves (content : List ContentItem) (s : TabbedState)
    (e : TabPress) (h : slotInv content s) : slotInv content (stepTabbed content s e) := by
  cases e with
  | select n => exact reconcile_matches s.mounted (renderSlot content n)
  | panel us =>
      show matchesSlot (panelEvent s us).mounted
        (renderSlot content (panelEvent s us).activeTab)
      rw [panelEvent_activeTab]
      exact panelEvent_matches s us _ h

/-- The slot invariant holds along any event fold. -/
theorem foldl_preserves_slotInv (content : List ContentItem) (evs : List TabPress)
    (s : TabbedState) (h : slotInv content s) :
    slotInv content (evs.foldl (stepTabbed content) s) := by
  induction evs generalizing s with
  | nil => exact h
  | cons e rest ih => exact ih _ (stepTabbed_preserves content s e h)

/-- Every reachable container state satisfies the slot invariant. -/
theorem runTabbed_slotInv (content : List ContentItem) (evs : List TabPress) :
    slotInv content (runTabbed content evs) :=
  foldl_preserves_slotInv content evs _
    (reconcile_matches Mounted.noUnit (renderSlot content 0))

/-- C3 counterexample: with the empty content list, the container's
initial reachable state (the selectable content-bearing selection 0)
mounts zero content-or-alternate units, not exactly one. -/
theorem tabbed_empty_zero_units :
    (runTabbed [] []).mounted = Mounted.noUnit
    ∧ unitCount (runTabbed [] []).mounted = 0
    ∧ unitCount (runTabbed [] []).mounted ≠ 1 :=
  ⟨rfl, rfl, by decide⟩

/-- C3 (amended): in every reachable state of the container, at most one
content-or-alternate unit is mounted — exactly one whenever the selection
addresses the alternate slot (index above 2) or resolves to a record, and
none when a content-bearing selection resolves to no record; selecting an
index above 2 always mounts the alternate unit, unmounting any content
panel. -/
theorem tabbed_slot_characterisation (content : List ContentItem) (evs : List TabPress) :
    unitCount (runTabbed content evs).mounted ≤ 1
    ∧ (2 < (runTabbed content evs).activeTab →
        (runTabbed content evs).mounted = Mounted.differentInst)
    ∧ (∀ it, (runTabbed content evs).activeTab ≤ 2 →
        content[(runTabbed content evs).activeTab]? = some it →
        ∃ st, (runTabbed content evs).mounted = Mounted.contentInst it.summary st)
    ∧ ((runTabbed content evs).activeTab ≤ 2 →
        content[(runTabbed content evs).activeTab]? = none →
        (runTabbed content evs).mounted = Mounted.noUnit)
    ∧ (∀ n, 2 < n →
        (stepTabbed content (runTabbed content evs) (TabPress.select n)).mounted
          = Mounted.differentInst) := by
  have h : matchesSlot (runTabbed content evs).mounted
      (renderSlot content (runTabbed content evs).activeTab) :=
    runTabbed_slotInv content evs
  refine ⟨?_, ?_, ?_, ?_, ?_⟩
  · cases (runTabbed content evs).mounted <;> simp [unitCount]
  · intro h3
    have e : renderSlot content (runTabbed content evs).activeTab
        = PanelSlot.differentContent := by
      simp [renderSlot, Nat.not_le.mpr h3]
    rw [e] at h
    cases hm : (runTabbed content evs).mounted <;> rw [hm] at h <;>
      simp [matchesSlot] at h ⊢
  · intro it h2 hit
    have e : renderSlot content (runTabbed content evs).activeTab
        = PanelSlot.contentPanel it.summary it := by
      simp [renderSlot, currentItem, h2, hit]
    rw [e] at h
    cases hm : (runTabbed content evs).mounted with
    | noUnit => rw [hm] at h; exact absurd h (by simp [matchesSlot])
    | differentInst => rw [hm] at h; exact absurd h (by simp [matchesSlot])
    | contentInst k st =>
        rw [hm] at h
        have hk : k = it.summary := h
        exact ⟨st, by rw [hk]⟩
  · intro h2 hnone
    have e : renderSlot content (runTabbed content evs).activeTab
        = PanelSlot.empty := by
      simp [renderSlot, currentItem, h2, hnone]
    rw [e] at h
    cases hm : (runTabbed content evs).mounted <;> rw [hm] at h <;>
      simp [matchesSlot] at h ⊢
  · intro n h3
    have e : renderSlot content n = PanelSlot.differentContent := by
      simp [renderSlot, Nat.not_le.mpr h3]
    show (selectTab content (runTabbed content evs) n).mounted = Mounted.differentInst
    simp only [selectTab, e]
    rfl

/-- Witness for the amended C3 at the spec's demo list: selecting the
alternate index mounts the alternate unit, and the initial state carries
a content panel keyed by the first record's summary. -/
theorem tabbed_slot_characterisation_witness :
    (runTabbed demoContent [TabPress.select 3]).mounted = Mounted.differentInst
    ∧ ∃ st, (runTabbed demoContent []).mounted = Mounted.contentInst "A" st :=
  ⟨(tabbed_slot_characterisation demoContent [TabPress.select 3]).2.1 (by decide),
   (tabbed_slot_characterisation demoContent []).2.2.1
     { summary := "A", details := "a" } (by decide) (by decide)⟩
